import Mathlib

/-!
Shallow embedding of the two console programs of this repository:
src/simple_webrtc_client_stub.cpp and
src/WebRTC_Video_Streaming/build/real_webrtc_client.cpp.

Both programs only print fixed text and finally read one keypress.  A run is
modelled as a pure function of the compile-time platform (`win32`, whether the
program was built with _WIN32 defined), the run-time outcome of the one
external call WSAStartup (`wsaOk`, only consulted on the _WIN32 build; the
call starts a socket layer that is never used afterwards), and the contents
of standard input.  Output statements are modelled one list entry per
statement, each entry being the text the statement sends before its final
std::endl; stdout and stderr are tracked separately.
-/

namespace WebRTCVS

/-- Model of C++ std::string::substr(pos, count) at the character level: it
throws std::out_of_range exactly when pos exceeds the string length, and
otherwise returns at most count characters starting at position pos. -/
def cppSubstr (s : String) (pos count : Nat) : Except String String :=
  if pos > s.length then Except.error "out_of_range"
  else Except.ok (String.mk ((s.data.drop pos).take count))

/-- Model of std::cin.get(): consume one character of standard input (none at
end of file) and return it together with the remaining input. -/
def cinGet (stdin : List Char) : Option Char × List Char :=
  (stdin.head?, stdin.tail)

/-- Observable result of one whole process run: the statements printed to
standard output, the statements printed to standard error, the unread rest of
standard input, and the process exit code. -/
structure RunResult where
  stdout : List String
  stderr : List String
  stdinLeft : List Char
  exitCode : Nat
deriving Repr, DecidableEq

namespace SimpleWebRTCClient

/-- Constructor SimpleWebRTCClient::SimpleWebRTCClient (stub file, lines 77-93):
prints the banner; on the _WIN32 build it calls WSAStartup and, when that
fails, reports to stderr and returns early, skipping the final line.
Returns the pair (stdout statements, stderr statements). -/
def ctor (win32 wsaOk : Bool) : List String × List String :=
  let banner := ["=== WebRTC Native Client - Stub Version ===",
   "This demonstrates the native WebRTC implementation",
   "============================================\n"]
  if win32 then
    if wsaOk then
      (banner ++ ["Windows networking initialized", "WebRTC Client initialized (stub version)!"], [])
    else
      (banner, ["Failed to initialize Windows networking"])
  else
    (banner ++ ["WebRTC Client initialized (stub version)!"], [])

/-- SimpleWebRTCClient::CreatePeerConnection (stub file, lines 101-110):
prints two lines and returns true. -/
def CreatePeerConnection : List String × Bool :=
  (["Creating PeerConnection...", "PeerConnection created successfully (stub)!"], true)

/-- SimpleWebRTCClient::AddVideoStream (stub file, lines 112-122). -/
def AddVideoStream : List String × Bool :=
  (["Adding video stream...", "Video stream added successfully (stub)!"], true)

/-- SimpleWebRTCClient::AddAudioStream (stub file, lines 124-134). -/
def AddAudioStream : List String × Bool :=
  (["Adding audio stream...", "Audio stream added successfully (stub)!"], true)

/-- SimpleWebRTCClient::CreateOffer (stub file, lines 136-143). -/
def CreateOffer : List String :=
  ["Creating offer...", "Offer created successfully (stub)!"]

/-- SimpleWebRTCClient::HandleSignaling (stub file, lines 145-150): prints one
statement built from message.substr(0, 50); substr may in general throw, so
the result is in Except. -/
def HandleSignaling (message : String) : Except String (List String) :=
  (cppSubstr message 0 50).map
    (fun pre => ["Handling signaling message: " ++ pre ++ "..."])

/-- SimpleWebRTCClient::StartVideoCapture (stub file, lines 152-160). -/
def StartVideoCapture : List String :=
  ["Starting video capture...", "Video capture started (stub)!"]

/-- SimpleWebRTCClient::RenderVideo (stub file, lines 162-171). -/
def RenderVideo : List String :=
  ["Rendering video...", "Video rendering active (stub)!"]

/-- Opening banner printed by SimpleWebRTCClient::Run (stub file, lines 174-176). -/
def runBanner : List String :=
  ["\n=== WebRTC Native Client Running ===",
   "This demonstrates the structure of a native WebRTC application",
   "=====================================\n"]

/-- Closing banner printed by SimpleWebRTCClient::Run (stub file, lines 186-194). -/
def featuresBanner : List String :=
  ["\n=== Native WebRTC Features Demonstrated ===",
   "✅ PeerConnection creation",
   "✅ Video stream handling",
   "✅ Audio stream handling",
   "✅ Video capture",
   "✅ SDP offer/answer",
   "✅ Video rendering",
   "✅ Signaling protocol",
   "==========================================\n"]

/-- SimpleWebRTCClient::Run (stub file, lines 173-198): opening banner, the six
operations in their fixed order (boolean results discarded), closing banner,
the prompt, then one std::cin.get().  Returns (stdout statements, rest of
standard input). -/
def Run (stdin : List Char) : List String × List Char :=
  (runBanner ++ CreatePeerConnection.1 ++ AddVideoStream.1 ++ AddAudioStream.1
     ++ StartVideoCapture ++ CreateOffer ++ RenderVideo ++ featuresBanner
     ++ ["Press Enter to exit..."],
   (cinGet stdin).2)

end SimpleWebRTCClient

/-- Header printed by main of the stub program (stub file, lines 209-211). -/
def stubMainHeader : List String :=
  ["🎥 WebRTC Native Video Streaming Client",
   "Using WebRTC C++ Source Code (Stub Version)",
   "==========================================\n"]

/-- main of simple_webrtc_client_stub.cpp (lines 208-222): prints the header,
then inside a try block constructs a SimpleWebRTCClient and calls Run.  No
operation in the compiled path throws, so the catch handler (which would print
to stderr and return 1) never runs and main returns 0. -/
def stubMain (win32 wsaOk : Bool) (stdin : List Char) : RunResult where
  stdout := stubMainHeader ++ (SimpleWebRTCClient.ctor win32 wsaOk).1
              ++ (SimpleWebRTCClient.Run stdin).1
  stderr := (SimpleWebRTCClient.ctor win32 wsaOk).2
  stdinLeft := (SimpleWebRTCClient.Run stdin).2
  exitCode := 0

namespace RealWebRTCClient

/-- The macro WEBRTC_HEADERS_AVAILABLE (real file, lines 22-27): defined as 0
in the _WIN32 branch and as 0 in the other branch of the platform #ifdef. -/
def WEBRTC_HEADERS_AVAILABLE (win32 : Bool) : Nat :=
  if win32 then 0 else 0

/-- Placeholder for the statements of a source block guarded by
`#if WEBRTC_HEADERS_AVAILABLE`: since the flag is 0 the preprocessor removes
that text before compilation, so it contributes no behaviour; the theorems
below prove these branches are never selected. -/
def excludedV : List String := []

/-- Placeholder for a preprocessor-excluded block of a bool-returning method;
see excludedV. -/
def excludedB : List String × Bool := ([], false)

/-- Demo-branch statements of the constructor (real file, lines 154-155). -/
def ctorDemoLines : List String :=
  ["Running in DEMO mode (WebRTC headers not available)", "Showing real WebRTC source code patterns"]

/-- Constructor RealWebRTCClient::RealWebRTCClient (real file, lines 137-159):
prints the banner; on _WIN32 it calls WSAStartup and on failure reports to
stderr and returns early.  Then the flag-guarded pair of lines (the demo pair
in the compiled path) and the final line.  Returns (stdout, stderr). -/
def ctor (win32 wsaOk : Bool) : List String × List String :=
  let banner := ["=== Real WebRTC Native Client ==="]
  let rest := (if WEBRTC_HEADERS_AVAILABLE win32 ≠ 0 then excludedV else ctorDemoLines)
                ++ ["WebRTC Client initialized!"]
  if win32 then
    if wsaOk then
      (banner ++ ["Windows networking initialized"] ++ rest, [])
    else
      (banner, ["Failed to initialize Windows networking"])
  else
    (banner ++ rest, [])

/-- Demo-branch statements of InitializeWebRTC (real file, lines 210-215). -/
def InitializeWebRTC_demoLines : List String :=
  ["DEMO: WebRTC initialization simulated",
   "  - CreateDefaultTaskQueueFactory()",
   "  - CreateEnvironment()",
   "  - CreateModularPeerConnectionFactory()",
   "  - CreateBuiltinAudioEncoderFactory()",
   "  - CreateBuiltinVideoEncoderFactory()"]

/-- RealWebRTCClient::InitializeWebRTC (real file, lines 167-218): prints the
first line, then either the flag-guarded block (excluded, flag is 0) or the
demo block, and returns true in the demo block. -/
def InitializeWebRTC (win32 : Bool) : List String × Bool :=
  if WEBRTC_HEADERS_AVAILABLE win32 ≠ 0 then
    (["Initializing WebRTC..."] ++ excludedB.1, excludedB.2)
  else
    (["Initializing WebRTC..."] ++ InitializeWebRTC_demoLines, true)

/-- Demo-branch statements of CreatePeerConnection (real file, lines 245-248). -/
def CreatePeerConnection_demoLines : List String :=
  ["DEMO: PeerConnection creation simulated",
   "  - PeerConnectionInterface::RTCConfiguration config",
   "  - config.sdp_semantics = SdpSemantics::kUnifiedPlan",
   "  - peer_connection_factory_->CreatePeerConnection()"]

/-- RealWebRTCClient::CreatePeerConnection (real file, lines 220-251). -/
def CreatePeerConnection (win32 : Bool) : List String × Bool :=
  if WEBRTC_HEADERS_AVAILABLE win32 ≠ 0 then
    (["Creating PeerConnection..."] ++ excludedB.1, excludedB.2)
  else
    (["Creating PeerConnection..."] ++ CreatePeerConnection_demoLines, true)

/-- Demo-branch statements of AddVideoStream (real file, lines 297-302). -/
def AddVideoStream_demoLines : List String :=
  ["DEMO: Video stream addition simulated",
   "  - VideoCaptureFactory::CreateDeviceInfo()",
   "  - CreateVideoCapturer()",
   "  - peer_connection_factory_->CreateVideoSource()",
   "  - peer_connection_factory_->CreateVideoTrack()",
   "  - peer_connection_->AddTrack()"]

/-- RealWebRTCClient::AddVideoStream (real file, lines 253-305). -/
def AddVideoStream (win32 : Bool) : List String × Bool :=
  if WEBRTC_HEADERS_AVAILABLE win32 ≠ 0 then
    (["Adding video stream..."] ++ excludedB.1, excludedB.2)
  else
    (["Adding video stream..."] ++ AddVideoStream_demoLines, true)

/-- Demo-branch statements of AddAudioStream (real file, lines 344-347). -/
def AddAudioStream_demoLines : List String :=
  ["DEMO: Audio stream addition simulated",
   "  - peer_connection_factory_->CreateAudioSource()",
   "  - peer_connection_factory_->CreateAudioTrack()",
   "  - peer_connection_->AddTrack()"]

/-- RealWebRTCClient::AddAudioStream (real file, lines 307-350). -/
def AddAudioStream (win32 : Bool) : List String × Bool :=
  if WEBRTC_HEADERS_AVAILABLE win32 ≠ 0 then
    (["Adding audio stream..."] ++ excludedB.1, excludedB.2)
  else
    (["Adding audio stream..."] ++ AddAudioStream_demoLines, true)

/-- Demo-branch statements of CreateOffer (real file, lines 363-366). -/
def CreateOffer_demoLines : List String :=
  ["DEMO: SDP offer creation simulated",
   "  - peer_connection_->CreateOffer()",
   "  - OnSuccess() callback with SessionDescriptionInterface",
   "  - peer_connection_->SetLocalDescription()"]

/-- RealWebRTCClient::CreateOffer (real file, lines 352-368). -/
def CreateOffer (win32 : Bool) : List String :=
  if WEBRTC_HEADERS_AVAILABLE win32 ≠ 0 then
    ["Creating offer..."] ++ excludedV
  else
    ["Creating offer..."] ++ CreateOffer_demoLines

/-- Demo-branch statements of StartVideoCapture (real file, lines 396-400). -/
def StartVideoCapture_demoLines : List String :=
  ["DEMO: Video capture initialization simulated",
   "  - VideoCaptureFactory::CreateDeviceInfo()",
   "  - device_info->NumberOfDevices()",
   "  - device_info->GetDeviceName()",
   "  - CreateDeviceCapturer() or CreateSquareFrameGenerator()"]

/-- RealWebRTCClient::StartVideoCapture (real file, lines 370-402). -/
def StartVideoCapture (win32 : Bool) : List String :=
  if WEBRTC_HEADERS_AVAILABLE win32 ≠ 0 then
    ["Starting video capture..."] ++ excludedV
  else
    ["Starting video capture..."] ++ StartVideoCapture_demoLines

/-- RealWebRTCClient::RenderVideo (real file, lines 404-407): unconditional. -/
def RenderVideo : List String :=
  ["Rendering video...", "Video rendering initialized!"]

/-- Opening banner printed by RealWebRTCClient::Run (real file, lines 410-412). -/
def runBanner : List String :=
  ["\n=== Real WebRTC Native Client Running ===",
   "This uses actual WebRTC C++ source code patterns",
   "========================================\n"]

/-- Demo-branch statements of the closing banner (real file, lines 447-452). -/
def featuresDemoLines : List String :=
  ["ðŸŽ¯ Real WebRTC source code patterns demonstrated",
   "ðŸ“‹ Shows actual WebRTC API usage from conductor.cc",
   "ðŸ”§ Demonstrates proper WebRTC initialization flow",
   "ðŸ“¹ Shows video/audio capture and track creation",
   "ðŸŒ Demonstrates SDP offer/answer and ICE handling",
   "ðŸ’¡ To use real WebRTC, build with WebRTC libraries"]

/-- Closing banner printed by RealWebRTCClient::Run (real file, lines 439-454). -/
def featuresBanner (win32 : Bool) : List String :=
  ["\n=== Real WebRTC Features Demonstrated ==="]
    ++ (if WEBRTC_HEADERS_AVAILABLE win32 ≠ 0 then excludedV else featuresDemoLines)
    ++ ["====================================\n"]

/-- RealWebRTCClient::Run (real file, lines 409-458): opening banner, then
InitializeWebRTC and CreatePeerConnection with early returns to stderr when
they report failure, then the remaining operations in order, the closing
banner, the prompt, and one std::cin.get().  Returns
(stdout statements, stderr statements, rest of standard input). -/
def Run (win32 : Bool) (stdin : List Char) :
    List String × List String × List Char :=
  if (InitializeWebRTC win32).2 = false then
    (runBanner ++ (InitializeWebRTC win32).1, ["Failed to initialize WebRTC"], stdin)
  else if (CreatePeerConnection win32).2 = false then
    (runBanner ++ (InitializeWebRTC win32).1 ++ (CreatePeerConnection win32).1,
     ["Failed to create peer connection"], stdin)
  else
    (runBanner ++ (InitializeWebRTC win32).1 ++ (CreatePeerConnection win32).1
       ++ (AddVideoStream win32).1 ++ (AddAudioStream win32).1
       ++ StartVideoCapture win32 ++ CreateOffer win32 ++ RenderVideo
       ++ featuresBanner win32 ++ ["Press Enter to exit..."],
     [], (cinGet stdin).2)

end RealWebRTCClient

/-- Header printed by main of the real program (real file, lines 523-525). -/
def realMainHeader : List String :=
  ["ðŸŽ¥ Real WebRTC Native Video Streaming Client",
   "Using WebRTC C++ Source Code Patterns",
   "==========================================\n"]

/-- main of real_webrtc_client.cpp (lines 522-536): prints the header, then
inside a try block constructs a RealWebRTCClient and calls Run.  No operation
in the compiled path throws, so the catch handler never runs and main
returns 0. -/
def realMain (win32 wsaOk : Bool) (stdin : List Char) : RunResult where
  stdout := realMainHeader ++ (RealWebRTCClient.ctor win32 wsaOk).1
              ++ (RealWebRTCClient.Run win32 stdin).1
  stderr := (RealWebRTCClient.ctor win32 wsaOk).2
              ++ (RealWebRTCClient.Run win32 stdin).2.1
  stdinLeft := (RealWebRTCClient.Run win32 stdin).2.2
  exitCode := 0

/-- The operations of SimpleWebRTCClient that can be invoked on a constructed
client object.  HandleSignaling carries its string argument. -/
inductive StubOp where
  | createPeerConnection
  | addVideoStream
  | addAudioStream
  | createOffer
  | handleSignaling (message : String)
  | startVideoCapture
  | renderVideo

/-- The compiled SimpleWebRTCClient class has no live data members (its member
list, stub file lines 200-206, is entirely comments), so the object state is
trivial.  Invoking an operation yields its stdout statements and the
unchanged object state. -/
def stubStep (op : StubOp) (s : Unit) : List String × Unit :=
  match op with
  | .createPeerConnection => (SimpleWebRTCClient.CreatePeerConnection.1, s)
  | .addVideoStream => (SimpleWebRTCClient.AddVideoStream.1, s)
  | .addAudioStream => (SimpleWebRTCClient.AddAudioStream.1, s)
  | .createOffer => (SimpleWebRTCClient.CreateOffer, s)
  | .handleSignaling message =>
      (match SimpleWebRTCClient.HandleSignaling message with
       | Except.ok out => (out, s)
       | Except.error _ => ([], s))
  | .startVideoCapture => (SimpleWebRTCClient.StartVideoCapture, s)
  | .renderVideo => (SimpleWebRTCClient.RenderVideo, s)

/-- Stdout of invoking a sequence of operations on one SimpleWebRTCClient
object, threading the object state through the calls. -/
def stubTrace (ops : List StubOp) (s : Unit) : List String :=
  match ops with
  | [] => []
  | op :: rest =>
      (stubStep op s).1 ++ stubTrace rest (stubStep op s).2

/-- The operations of RealWebRTCClient that can be invoked on a constructed
client object. -/
inductive RealOp where
  | initializeWebRTC
  | createPeerConnection
  | addVideoStream
  | addAudioStream
  | createOffer
  | startVideoCapture
  | renderVideo

/-- The compiled RealWebRTCClient class has no live data members (its member
list, real file lines 484-519, is entirely inside the excluded
`#if WEBRTC_HEADERS_AVAILABLE` block), so the object state is trivial. -/
def realStep (win32 : Bool) (op : RealOp) (s : Unit) : List String × Unit :=
  match op with
  | .initializeWebRTC => ((RealWebRTCClient.InitializeWebRTC win32).1, s)
  | .createPeerConnection => ((RealWebRTCClient.CreatePeerConnection win32).1, s)
  | .addVideoStream => ((RealWebRTCClient.AddVideoStream win32).1, s)
  | .addAudioStream => ((RealWebRTCClient.AddAudioStream win32).1, s)
  | .createOffer => (RealWebRTCClient.CreateOffer win32, s)
  | .startVideoCapture => (RealWebRTCClient.StartVideoCapture win32, s)
  | .renderVideo => (RealWebRTCClient.RenderVideo, s)

/-- Stdout of invoking a sequence of operations on one RealWebRTCClient
object, threading the object state through the calls. -/
def realTrace (win32 : Bool) (ops : List RealOp) (s : Unit) : List String :=
  match ops with
  | [] => []
  | op :: rest =>
      (realStep win32 op s).1 ++ realTrace win32 rest (realStep win32 op s).2

/-- Character-level prefix test on strings, used to state that a given kind of
statement never occurs in a program's output. -/
def strStartsWith (s pre : String) : Bool :=
  pre.data.isPrefixOf s.data

/-- Appending operation sequences concatenates their stub-client traces; the
trivial object state makes the tail trace independent of the state it starts
from. -/
theorem stubTrace_append (l1 l2 : List StubOp) (s : Unit) :
    stubTrace (l1 ++ l2) s = stubTrace l1 s ++ stubTrace l2 () := by
  induction l1 generalizing s with
  | nil => rfl
  | cons op rest ih => simp [stubTrace, ih, List.append_assoc]

/-- Appending operation sequences concatenates their real-client traces. -/
theorem realTrace_append (win32 : Bool) (l1 l2 : List RealOp) (s : Unit) :
    realTrace win32 (l1 ++ l2) s = realTrace win32 l1 s ++ realTrace win32 l2 () := by
  induction l1 generalizing s with
  | nil => rfl
  | cons op rest ih => simp [realTrace, ih, List.append_assoc]

/-- C1: For every run of either program (with standard input available for the
final read, and the inert WSAStartup call succeeding as it always does in
practice), the sequence of lines written to standard output is the same fixed
sequence — independent of the standard-input contents — and the last line
written before the program waits on std::cin.get() is the prompt
"Press Enter to exit...". -/
theorem claim1_deterministic_output (win32 k1 k2 : Bool) (s1 s2 : List Char)
    (h1 : k1 = true) (h2 : k2 = true) :
    (stubMain win32 k1 s1).stdout = (stubMain win32 k2 s2).stdout ∧
    (realMain win32 k1 s1).stdout = (realMain win32 k2 s2).stdout ∧
    (stubMain win32 k1 s1).stdout.getLast? = some "Press Enter to exit..." ∧
    (realMain win32 k1 s1).stdout.getLast? = some "Press Enter to exit..." := by
  subst h1; subst h2
  cases win32 <;> exact ⟨rfl, rfl, rfl, rfl⟩

/-- Concrete instantiation of claim1_deterministic_output: two runs of each
program on different standard inputs produce identical stdout ending in the
prompt. -/
theorem claim1_deterministic_output_witness :
    (stubMain true true ['a']).stdout = (stubMain true true []).stdout ∧
    (realMain true true ['a']).stdout = (realMain true true []).stdout ∧
    (stubMain true true ['a']).stdout.getLast? = some "Press Enter to exit..." ∧
    (realMain true true ['a']).stdout.getLast? = some "Press Enter to exit..." :=
  claim1_deterministic_output true true true ['a'] [] rfl rfl

/-- C2: Each program's Run invokes its operations in one fixed order — the stub
client: CreatePeerConnection, AddVideoStream, AddAudioStream,
StartVideoCapture, CreateOffer, RenderVideo; the real client:
InitializeWebRTC, CreatePeerConnection, AddVideoStream, AddAudioStream,
StartVideoCapture, CreateOffer, RenderVideo — then prints the closing banner
and finally consumes the keypress, on every run. -/
theorem claim2_fixed_call_order (win32 wsaOk : Bool) (stdin : List Char) :
    (stubMain win32 wsaOk stdin).stdout =
      stubMainHeader ++ (SimpleWebRTCClient.ctor win32 wsaOk).1
        ++ SimpleWebRTCClient.runBanner
        ++ SimpleWebRTCClient.CreatePeerConnection.1
        ++ SimpleWebRTCClient.AddVideoStream.1
        ++ SimpleWebRTCClient.AddAudioStream.1
        ++ SimpleWebRTCClient.StartVideoCapture
        ++ SimpleWebRTCClient.CreateOffer
        ++ SimpleWebRTCClient.RenderVideo
        ++ SimpleWebRTCClient.featuresBanner
        ++ ["Press Enter to exit..."] ∧
    (stubMain win32 wsaOk stdin).stdinLeft = stdin.tail ∧
    (realMain win32 wsaOk stdin).stdout =
      realMainHeader ++ (RealWebRTCClient.ctor win32 wsaOk).1
        ++ RealWebRTCClient.runBanner
        ++ (RealWebRTCClient.InitializeWebRTC win32).1
        ++ (RealWebRTCClient.CreatePeerConnection win32).1
        ++ (RealWebRTCClient.AddVideoStream win32).1
        ++ (RealWebRTCClient.AddAudioStream win32).1
        ++ RealWebRTCClient.StartVideoCapture win32
        ++ RealWebRTCClient.CreateOffer win32
        ++ RealWebRTCClient.RenderVideo
        ++ RealWebRTCClient.featuresBanner win32
        ++ ["Press Enter to exit..."] ∧
    (realMain win32 wsaOk stdin).stdinLeft = stdin.tail := by
  cases win32 <;> cases wsaOk <;> exact ⟨rfl, rfl, rfl, rfl⟩

/-- C3: WEBRTC_HEADERS_AVAILABLE is 0 in both branches of the platform #ifdef,
so on every platform each flag-guarded method of RealWebRTCClient executes
only its fallback branch, the one that prints the names of the library calls
it would have made; the guarded branch is never selected. -/
theorem claim3_flag_always_zero (win32 : Bool) :
    RealWebRTCClient.WEBRTC_HEADERS_AVAILABLE win32 = 0 ∧
    RealWebRTCClient.InitializeWebRTC win32 =
      (["Initializing WebRTC..."] ++ RealWebRTCClient.InitializeWebRTC_demoLines, true) ∧
    RealWebRTCClient.CreatePeerConnection win32 =
      (["Creating PeerConnection..."] ++ RealWebRTCClient.CreatePeerConnection_demoLines, true) ∧
    RealWebRTCClient.AddVideoStream win32 =
      (["Adding video stream..."] ++ RealWebRTCClient.AddVideoStream_demoLines, true) ∧
    RealWebRTCClient.AddAudioStream win32 =
      (["Adding audio stream..."] ++ RealWebRTCClient.AddAudioStream_demoLines, true) ∧
    RealWebRTCClient.CreateOffer win32 =
      ["Creating offer..."] ++ RealWebRTCClient.CreateOffer_demoLines ∧
    RealWebRTCClient.StartVideoCapture win32 =
      ["Starting video capture..."] ++ RealWebRTCClient.StartVideoCapture_demoLines ∧
    RealWebRTCClient.featuresBanner win32 =
      ["\n=== Real WebRTC Features Demonstrated ==="]
        ++ RealWebRTCClient.featuresDemoLines
        ++ ["====================================\n"] := by
  cases win32 <;> exact ⟨rfl, rfl, rfl, rfl, rfl, rfl, rfl, rfl⟩

/-- C4: For every run, each program's exit code is 0 or 1; 1 would be returned
only when a std::exception propagated out of the client's construction or
Run, which never happens in the compiled path, so every run in the model
returns 0 and no other exit code is possible from main. -/
theorem claim4_exit_codes (win32 wsaOk : Bool) (stdin : List Char) :
    ((stubMain win32 wsaOk stdin).exitCode = 0 ∨
      (stubMain win32 wsaOk stdin).exitCode = 1) ∧
    ((realMain win32 wsaOk stdin).exitCode = 0 ∨
      (realMain win32 wsaOk stdin).exitCode = 1) :=
  ⟨Or.inl rfl, Or.inl rfl⟩

/-- C5: The catch-all handler in main is unreachable in the compiled code path:
no operation invoked from the client constructor or Run throws, so every run
returns exit code 0 and the "Error: " message never appears on stderr. -/
theorem claim5_catch_unreachable (win32 wsaOk : Bool) (stdin : List Char) :
    (stubMain win32 wsaOk stdin).exitCode = 0 ∧
    (stubMain win32 wsaOk stdin).stderr.all
      (fun l => !(strStartsWith l "Error: ")) = true ∧
    (realMain win32 wsaOk stdin).exitCode = 0 ∧
    (realMain win32 wsaOk stdin).stderr.all
      (fun l => !(strStartsWith l "Error: ")) = true := by
  cases win32 <;> cases wsaOk <;> exact ⟨rfl, rfl, rfl, rfl⟩

/-- C6: In the compiled code path every operation method is nothing but console
output: each one equals a fixed constant (statement list, and return value
true for the bool-returning ones), independent of the platform and of any
object state, with no conditional behaviour at all — in particular none
beyond the null-handle checks the claim allows, which only occur in the
preprocessor-excluded branches. -/
theorem claim6_methods_constant (win32 : Bool) :
    SimpleWebRTCClient.CreatePeerConnection =
      (["Creating PeerConnection...", "PeerConnection created successfully (stub)!"], true) ∧
    SimpleWebRTCClient.AddVideoStream =
      (["Adding video stream...", "Video stream added successfully (stub)!"], true) ∧
    SimpleWebRTCClient.AddAudioStream =
      (["Adding audio stream...", "Audio stream added successfully (stub)!"], true) ∧
    SimpleWebRTCClient.CreateOffer =
      ["Creating offer...", "Offer created successfully (stub)!"] ∧
    SimpleWebRTCClient.StartVideoCapture =
      ["Starting video capture...", "Video capture started (stub)!"] ∧
    SimpleWebRTCClient.RenderVideo =
      ["Rendering video...", "Video rendering active (stub)!"] ∧
    RealWebRTCClient.InitializeWebRTC win32 =
      (["Initializing WebRTC..."] ++ RealWebRTCClient.InitializeWebRTC_demoLines, true) ∧
    RealWebRTCClient.CreatePeerConnection win32 =
      (["Creating PeerConnection..."] ++ RealWebRTCClient.CreatePeerConnection_demoLines, true) ∧
    RealWebRTCClient.AddVideoStream win32 =
      (["Adding video stream..."] ++ RealWebRTCClient.AddVideoStream_demoLines, true) ∧
    RealWebRTCClient.AddAudioStream win32 =
      (["Adding audio stream..."] ++ RealWebRTCClient.AddAudioStream_demoLines, true) ∧
    RealWebRTCClient.CreateOffer win32 =
      ["Creating offer..."] ++ RealWebRTCClient.CreateOffer_demoLines ∧
    RealWebRTCClient.StartVideoCapture win32 =
      ["Starting video capture..."] ++ RealWebRTCClient.StartVideoCapture_demoLines ∧
    RealWebRTCClient.RenderVideo =
      ["Rendering video...", "Video rendering initialized!"] := by
  cases win32 <;>
    exact ⟨rfl, rfl, rfl, rfl, rfl, rfl, rfl, rfl, rfl, rfl, rfl, rfl, rfl⟩

/-- C7: After the closing banner and the prompt, each program consumes exactly
one character from standard input and then terminates, and that single
std::cin.get() is the only read: stdout, stderr and the exit code do not
depend on the contents of standard input. -/
theorem claim7_single_stdin_read (win32 wsaOk : Bool) (stdin : List Char) :
    (stubMain win32 wsaOk stdin).stdinLeft = stdin.drop 1 ∧
    (realMain win32 wsaOk stdin).stdinLeft = stdin.drop 1 ∧
    (stubMain win32 wsaOk stdin).stdout = (stubMain win32 wsaOk []).stdout ∧
    (stubMain win32 wsaOk stdin).stderr = (stubMain win32 wsaOk []).stderr ∧
    (stubMain win32 wsaOk stdin).exitCode = (stubMain win32 wsaOk []).exitCode ∧
    (realMain win32 wsaOk stdin).stdout = (realMain win32 wsaOk []).stdout ∧
    (realMain win32 wsaOk stdin).stderr = (realMain win32 wsaOk []).stderr ∧
    (realMain win32 wsaOk stdin).exitCode = (realMain win32 wsaOk []).exitCode := by
  cases win32 <;> cases wsaOk <;> cases stdin <;>
    exact ⟨rfl, rfl, rfl, rfl, rfl, rfl, rfl, rfl⟩

/-- C8: Neither client object carries state across operations: the compiled
classes have no live data members, so invoking any operation leaves the
object state unchanged, and the output each operation contributes to a call
trace is the same whatever sequence of operations preceded it. -/
theorem claim8_stateless (pre : List StubOp) (op : StubOp) (s : Unit)
    (win32 : Bool) (rpre : List RealOp) (rop : RealOp) (t : Unit) :
    stubTrace (pre ++ [op]) s = stubTrace pre s ++ (stubStep op ()).1 ∧
    (stubStep op s).2 = s ∧
    realTrace win32 (rpre ++ [rop]) t =
      realTrace win32 rpre t ++ (realStep win32 rop ()).1 ∧
    (realStep win32 rop t).2 = t := by
  refine ⟨?_, rfl, ?_, rfl⟩
  · rw [stubTrace_append]; simp [stubTrace]
  · rw [realTrace_append]; simp [realTrace]

/-- C9: In the compiled code path of the real client the four boolean
operations return true unconditionally, so the early-return failure branches
of Run (which would print "Failed to initialize WebRTC" or "Failed to create
peer connection" to stderr) are unreachable: Run prints nothing to stderr and
every run of Run reaches the closing banner and the press-Enter prompt. -/
theorem claim9_failure_branches_unreachable (win32 : Bool) (stdin : List Char) :
    (RealWebRTCClient.InitializeWebRTC win32).2 = true ∧
    (RealWebRTCClient.CreatePeerConnection win32).2 = true ∧
    (RealWebRTCClient.AddVideoStream win32).2 = true ∧
    (RealWebRTCClient.AddAudioStream win32).2 = true ∧
    (RealWebRTCClient.Run win32 stdin).2.1 = [] ∧
    (RealWebRTCClient.Run win32 stdin).1.getLast? = some "Press Enter to exit..." := by
  cases win32 <;> exact ⟨rfl, rfl, rfl, rfl, rfl, rfl⟩

/-- C10: HandleSignaling is total on every input string: substr(0, 50) never
throws since its start position 0 never exceeds the length, the printed
statement carries the first min(50, length) characters of the message
followed by "...", and no statement of either kind ever appears in the
program's stdout because Run and main never invoke HandleSignaling. -/
theorem claim10_handleSignaling_total (message : String)
    (win32 wsaOk : Bool) (stdin : List Char) :
    SimpleWebRTCClient.HandleSignaling message =
      Except.ok ["Handling signaling message: "
                  ++ String.mk (message.data.take 50) ++ "..."] ∧
    (message.data.take 50).length = min 50 message.length ∧
    (stubMain win32 wsaOk stdin).stdout.all
      (fun l => !(strStartsWith l "Handling signaling message: ")) = true := by
  refine ⟨?_, ?_, ?_⟩
  · simp [SimpleWebRTCClient.HandleSignaling, cppSubstr, Except.map]
  · show (message.data.take 50).length = min 50 message.data.length
    exact List.length_take 50 message.data
  · cases win32 <;> cases wsaOk <;> rfl

end WebRTCVS
